import Mathlib

/-!
Verification of the evn engine's rendering and resource-loading core.

Shallow embedding of `evn_engine/src/resources.rs` and
`evn_engine/src/rendering/mod.rs`.  Vulkan enumeration values are modelled as
their raw integer codes; native handles are modelled as natural numbers; the
effectful FFI calls of teardown and of the per-tick frame loop are modelled as
event traces.  Machine integers (`u32`) only ever flow through comparisons and
min/max here, so they are modelled as `Nat` with the explicit sentinel
`U32_MAX = 2^32 - 1`.
-/

/-! ## Vulkan value types (from `ash::vk`, as used by `rendering/mod.rs`) -/

/-- `vk::PresentModeKHR` is a newtype over a raw integer code. -/
structure PresentModeKHR where
  raw : Int
  deriving DecidableEq, Repr

def PresentModeKHR.IMMEDIATE : PresentModeKHR := ⟨0⟩

def PresentModeKHR.MAILBOX : PresentModeKHR := ⟨1⟩

def PresentModeKHR.FIFO : PresentModeKHR := ⟨2⟩

def PresentModeKHR.FIFO_RELAXED : PresentModeKHR := ⟨3⟩

/-- `vk::Format` raw code for `UNDEFINED`. -/
def Format.UNDEFINED : Int := 0

/-- `vk::Format` raw code for `B8G8R8A8_UNORM` (8-bit BGRA). -/
def Format.B8G8R8A8_UNORM : Int := 44

/-- `vk::ColorSpaceKHR` raw code for `SRGB_NONLINEAR`. -/
def ColorSpaceKHR.SRGB_NONLINEAR : Int := 0

/-- `vk::SurfaceFormatKHR`: a pixel format paired with a color space. -/
structure SurfaceFormatKHR where
  format : Int
  color_space : Int
  deriving DecidableEq, Repr

instance : Inhabited SurfaceFormatKHR := ⟨⟨0, 0⟩⟩

/-- The fixed default pair built by the first branch of
`choose_swap_surface_format` (`B8G8R8A8_UNORM` + `SRGB_NONLINEAR`). -/
def defaultSurfaceFormat : SurfaceFormatKHR :=
  ⟨Format.B8G8R8A8_UNORM, ColorSpaceKHR.SRGB_NONLINEAR⟩

/-- `vk::Extent2D`; `u32` components modelled as `Nat`. -/
structure Extent2D where
  width : Nat
  height : Nat
  deriving DecidableEq, Repr

/-- `u32::max_value()`, the "any size" sentinel component of
`SurfaceCapabilitiesKHR::current_extent`. -/
def U32_MAX : Nat := 4294967295

/-- The fields of `vk::SurfaceCapabilitiesKHR` read by the swapchain code. -/
structure SurfaceCapabilitiesKHR where
  min_image_count : Nat
  max_image_count : Nat
  current_extent : Extent2D
  min_image_extent : Extent2D
  max_image_extent : Extent2D
  deriving DecidableEq, Repr

/-! ## Swapchain parameter choice (rendering/mod.rs lines 695-752) -/

/--
`choose_swap_surface_format` (rendering/mod.rs:695).  The final fallback
`available_formats[0]` indexes the first element and panics on an empty list;
that panic is modelled by the `none` result of `List.head?`.
-/
def choose_swap_surface_format (available_formats : List SurfaceFormatKHR) :
    Option SurfaceFormatKHR :=
  if available_formats.length = 1 ∧
      (available_formats.head?.map SurfaceFormatKHR.format) = some Format.UNDEFINED then
    some defaultSurfaceFormat
  else
    match available_formats.find? (fun f =>
        decide (f.format = Format.B8G8R8A8_UNORM ∧
                f.color_space = ColorSpaceKHR.SRGB_NONLINEAR)) with
    | some f => some f
    | none => available_formats.head?

/-- The loop body of `choose_swap_present_mode` (rendering/mod.rs:721):
`best_mode` starts as FIFO, a MAILBOX entry returns immediately, an IMMEDIATE
entry replaces `best_mode`. -/
def present_mode_loop : List PresentModeKHR → PresentModeKHR → PresentModeKHR
  | [], best_mode => best_mode
  | m :: rest, best_mode =>
    if m = PresentModeKHR.MAILBOX then m
    else if m = PresentModeKHR.IMMEDIATE then present_mode_loop rest m
    else present_mode_loop rest best_mode

/-- `choose_swap_present_mode` (rendering/mod.rs:716). -/
def choose_swap_present_mode (available_present_modes : List PresentModeKHR) :
    PresentModeKHR :=
  present_mode_loop available_present_modes PresentModeKHR.FIFO

/--
`choose_swap_extent` (rendering/mod.rs:732).  The window size delivered by
`window.get_inner_size()` is modelled as the already-converted integer pixel
pair.  Note the source compares only `current_extent.width` against
`u32::max_value()`.
-/
def choose_swap_extent (window_size : Nat × Nat)
    (capabilites : SurfaceCapabilitiesKHR) : Extent2D :=
  if capabilites.current_extent.width ≠ U32_MAX then
    capabilites.current_extent
  else
    let (width, height) := window_size
    { width := max capabilites.min_image_extent.width
        (min capabilites.max_image_extent.width width),
      height := max capabilites.min_image_extent.height
        (min capabilites.max_image_extent.height height) }

/-! ## Resource store (resources.rs) -/

/-- `Config` (config.rs:22): a validated document; its content never matters to
the store or renderer, so the wrapped YAML value is modelled as a string. -/
structure Config where
  conf : String
  deriving DecidableEq, Repr

/-- `Shader` (rendering/mod.rs:37): SPIR-V word streams for the vertex and
fragment stages. -/
structure Shader where
  vert : List Nat
  frag : List Nat
  deriving DecidableEq, Repr

/-- `Resource` (resources.rs:17). -/
inductive Resource
  | config (c : Config)
  | shader (s : Shader)
  deriving DecidableEq, Repr

/-- `ResourceState` (resources.rs:23).  `failed` carries no payload in the
source. -/
inductive ResourceState
  | loaded (r : Resource)
  | loading
  | failed
  deriving DecidableEq, Repr

/-- `ResourceState::is_loaded` (resources.rs:30). -/
def ResourceState.is_loaded : ResourceState → Bool
  | .loaded _ => true
  | _ => false

/-- `ResourceState::is_loading` (resources.rs:37). -/
def ResourceState.is_loading : ResourceState → Bool
  | .loading => true
  | _ => false

/-- `ResourceState.is_failed` (resources.rs:44). -/
def ResourceState.is_failed : ResourceState → Bool
  | .failed => true
  | _ => false

/-- The outcome a registered loader closure will produce: `Ok(Resource)` or a
displayable error (`E: Display` rendered to its message string). -/
abbrev LoadResult := Except String Resource

deriving instance DecidableEq for Except

/-- A line sent to the logging collaborator (the `log` crate macros). -/
inductive LogMsg
  | info (s : String)
  | warn (s : String)
  | error (s : String)
  deriving DecidableEq, Repr

/-- `HashMap::insert` semantics on an association list: replace the value
under an existing key, else append the binding. -/
def mapInsert (k : String) (v : ResourceState) :
    List (String × ResourceState) → List (String × ResourceState)
  | [] => [(k, v)]
  | (k₁, v₁) :: rest =>
    if k₁ = k then (k, v) :: rest else (k₁, v₁) :: mapInsert k v rest

/-- `HashMap::get` on an association list. -/
def mapGet (k : String) : List (String × ResourceState) → Option ResourceState
  | [] => none
  | (k₁, v₁) :: rest => if k₁ = k then some v₁ else mapGet k rest

/-- The whole shared state of `ResourcesData` together with the not yet
finished background loader threads and the log lines emitted so far. -/
structure StoreState where
  resources : List (String × ResourceState)
  pending : List (String × LoadResult)
  log : List LogMsg
  deriving DecidableEq, Repr

/-- `ResourcesData::add_resource` (resources.rs:65): insert `Loading` under
the name, then spawn a background thread that will eventually apply `load`'s
result.  The spawned thread is recorded as a pending task. -/
def add_resource (name : String) (load : LoadResult) (s : StoreState) : StoreState :=
  { s with
    resources := mapInsert name ResourceState.loading s.resources,
    pending := s.pending ++ [(name, load)] }

/-- The body of the thread spawned by `add_resource` (resources.rs:79-97):
on `Ok` store `Loaded` and log an info line (both only if the name is still
present); on `Err` log a warning carrying the cause, then store `Failed` if
the name is still present. -/
def runLoader (name : String) (result : LoadResult)
    (resources : List (String × ResourceState)) (log : List LogMsg) :
    List (String × ResourceState) × List LogMsg :=
  match result with
  | .ok loaded =>
    if (mapGet name resources).isSome then
      (mapInsert name (ResourceState.loaded loaded) resources,
       log ++ [LogMsg.info ("Resource \"" ++ name ++ "\" loaded!")])
    else
      (resources, log)
  | .error err =>
    let log := log ++ [LogMsg.warn ("Failed to load resource " ++ name ++ ": " ++ err)]
    if (mapGet name resources).isSome then
      (mapInsert name ResourceState.failed resources, log)
    else
      (resources, log)

/-- An event of a store history: either the consumer registers a resource, or
the scheduler lets the `i`-th outstanding loader thread finish. -/
inductive StoreEvent
  | register (name : String) (load : LoadResult)
  | complete (i : Nat)
  deriving DecidableEq, Repr

/-- One step of the store's interleaving semantics. -/
def storeStep (s : StoreState) : StoreEvent → StoreState
  | .register name load => add_resource name load s
  | .complete i =>
    match s.pending.get? i with
    | none => s
    | some (name, result) =>
      let out := runLoader name result s.resources s.log
      { resources := out.1, pending := s.pending.eraseIdx i, log := out.2 }

/-- Run a store history from the empty store. -/
def runStore (events : List StoreEvent) : StoreState :=
  events.foldl storeStep ⟨[], [], []⟩

/-- `ResourcesData::get_resource` (resources.rs:101), also the `peek`
operation of the spec; `none` models the "nonexistent resource" panic. -/
def get_resource (s : StoreState) (name : String) : Option ResourceState :=
  mapGet name s.resources

/-- How many events of a history register the given name. -/
def registerCount (n : String) : List StoreEvent → Nat
  | [] => 0
  | .register m _ :: rest => (if m = n then 1 else 0) + registerCount n rest
  | .complete _ :: rest => registerCount n rest

/-- How many outstanding loader threads will write under the given name. -/
def pendingCount (n : String) : List (String × LoadResult) → Nat
  | [] => 0
  | q :: rest => (if q.1 = n then 1 else 0) + pendingCount n rest

/-! ## Shader module construction (rendering/mod.rs:322-362) -/

/-- `either::Either<vk::Result, String>`, the cause stored in
`RendererInitError::ShaderLoadingError`. -/
inductive ErrCause
  | left (code : Int)
  | right (msg : String)
  deriving DecidableEq, Repr

/-- The possible outcomes of the shader-module build loop: a list of
(vertex, fragment) module handles, the `ShaderLoadingError` variant of
`RendererInitError`, or a process abort raised by the source's explicit
runtime abort on a non-shader payload. -/
inductive BuildResult
  | ok (modules : List (Nat × Nat))
  | err (name : String) (cause : ErrCause)
  | aborted (msg : String)
  deriving DecidableEq, Repr

/--
The `shader_modules` construction inside `Renderer::new`
(rendering/mod.rs:322-362).  `createModule` is the
`device.create_shader_module` oracle (failure = a `vk::Result` code);
`resState` gives, per name, the resolved state observed after the
busy-wait loop on `is_loading`.  Rust's lazy `map` + `collect::<Result<_,_>>`
short-circuits at the first error, which the recursion mirrors.
-/
def buildShaderModules (createModule : List Nat → Except Int Nat)
    (resState : String → ResourceState) : List String → BuildResult
  | [] => .ok []
  | name :: rest =>
    match resState name with
    | .loaded (.shader sh) =>
      match createModule sh.vert with
      | .error e => .err name (.left e)
      | .ok vm =>
        match createModule sh.frag with
        | .error e => .err name (.left e)
        | .ok fm =>
          match buildShaderModules createModule resState rest with
          | .ok ms => .ok ((vm, fm) :: ms)
          | other => other
    | .loaded (.config _) => .aborted "Non shader resource in shader List"
    | _ => .err name (.right "Failed shader requested")

/-! ## Swapchain teardown (rendering/mod.rs:639-668) -/

/-- One native destroy/free call; handles are modelled as `Nat`. -/
inductive DestroyEvent
  | freeCommandBuffers (buffers : List Nat)
  | destroyFramebuffer (fb : Nat)
  | destroyPipeline (p : Nat)
  | destroyPipelineLayout (pl : Nat)
  | destroyRenderPass (rp : Nat)
  | destroyImageView (v : Nat)
  | destroySwapchain (sc : Nat)
  | destroyDevice
  | destroyInstance
  deriving DecidableEq, Repr

/-- The object kind a destroy call touches. -/
inductive DestroyKind
  | commandBuffers
  | framebuffer
  | pipeline
  | pipelineLayout
  | renderPass
  | imageView
  | swapchain
  | device
  | inst
  deriving DecidableEq, Repr

def destroyKind : DestroyEvent → DestroyKind
  | .freeCommandBuffers _ => .commandBuffers
  | .destroyFramebuffer _ => .framebuffer
  | .destroyPipeline _ => .pipeline
  | .destroyPipelineLayout _ => .pipelineLayout
  | .destroyRenderPass _ => .renderPass
  | .destroyImageView _ => .imageView
  | .destroySwapchain _ => .swapchain
  | .destroyDevice => .device
  | .destroyInstance => .inst

/-- `cleanup_swapchain` (rendering/mod.rs:639): the exact sequence of native
release calls it performs, in source order. -/
def cleanup_swapchain (command_buffers : List Nat)
    (swapchain_framebuffers : List Nat) (pipeline pipeline_layout render_pass : Nat)
    (image_views : List Nat) (swapchain : Nat) : List DestroyEvent :=
  [DestroyEvent.freeCommandBuffers command_buffers]
    ++ swapchain_framebuffers.map DestroyEvent.destroyFramebuffer
    ++ [DestroyEvent.destroyPipeline pipeline,
        DestroyEvent.destroyPipelineLayout pipeline_layout,
        DestroyEvent.destroyRenderPass render_pass]
    ++ image_views.map DestroyEvent.destroyImageView
    ++ [DestroyEvent.destroySwapchain swapchain]

/-! ## Per-tick frame state machine (rendering/mod.rs:464-584) -/

/-- `MAX_FRAMES_IN_FLIGHT` (rendering/mod.rs:34). -/
def MAX_FRAMES_IN_FLIGHT : Nat := 2

/-- The swapchain-dependent handles produced by `create_swapchain` and stored
in the `Renderer` struct. -/
structure SwapchainCtx where
  swapchain : Nat
  image_views : List Nat
  pipeline_layout : Nat
  render_pass : Nat
  pipeline : Nat
  swapchain_framebuffers : List Nat
  command_buffers : List Nat
  deriving DecidableEq, Repr

/-- The mutable renderer state the tick operation touches. -/
structure RendererState where
  ctx : SwapchainCtx
  current_frame : Nat
  deriving DecidableEq, Repr

/-- Result of `swapchain_loader.acquire_next_image`. -/
inductive AcquireResult
  | ok (image_index : Nat)
  | errOutOfDate
  | errOther (code : Int)
  deriving DecidableEq, Repr

/-- The environment one tick observes: the acquire outcome, and the context
`create_swapchain` would produce were a rebuild needed this tick. -/
structure TickEnv where
  acquire : AcquireResult
  rebuilt : SwapchainCtx
  deriving Repr

/-- How a tick ends: a presented frame, a swapchain rebuild (retried next
tick), or process termination by `unwrap_or_log`. -/
inductive TickOutcome
  | presented (image_index : Nat)
  | rebuiltSwapchain
  | fatal
  deriving DecidableEq, Repr

/-- A queue/sync call the tick issues against the device. -/
inductive DeviceCall
  | wait_for_fences (fence_slot : Nat)
  | queue_wait_idle
  | reset_fences (fence_slot : Nat)
  | queue_submit (image_index : Nat) (fence_slot : Nat)
  | queue_present (image_index : Nat)
  deriving DecidableEq, Repr

/--
`<Renderer as System>::run` (rendering/mod.rs:464): wait on the slot's fence;
acquire; on `ERROR_OUT_OF_DATE_KHR` wait the present queue idle, tear down and
rebuild the swapchain context in place and return without touching
`current_frame`; on success reset the fence, submit, present, and advance
`current_frame` modulo `MAX_FRAMES_IN_FLIGHT`; any other acquire error exits
the process.
-/
def renderer_run (env : TickEnv) (s : RendererState) :
    RendererState × TickOutcome × List DeviceCall :=
  let pre := [DeviceCall.wait_for_fences s.current_frame]
  match env.acquire with
  | .errOutOfDate =>
    ({ s with ctx := env.rebuilt }, .rebuiltSwapchain,
     pre ++ [DeviceCall.queue_wait_idle])
  | .errOther _ => (s, .fatal, pre)
  | .ok image_index =>
    ({ s with current_frame := (s.current_frame + 1) % MAX_FRAMES_IN_FLIGHT },
     .presented image_index,
     pre ++ [DeviceCall.reset_fences s.current_frame,
             DeviceCall.queue_submit image_index s.current_frame,
             DeviceCall.queue_present image_index])

/-- Iterate ticks, keeping only the evolving state. -/
def runTicks (envs : List TickEnv) (s : RendererState) : RendererState :=
  envs.foldl (fun st e => (renderer_run e st).1) s

/-! ## Validation diagnostics callback (rendering/mod.rs:152-177, 1074-1100) -/

/-- `vk::DebugUtilsMessageSeverityFlagsEXT` raw bit values. -/
structure SeverityFlags where
  raw : Int
  deriving DecidableEq, Repr

def SeverityFlags.VERBOSE : SeverityFlags := ⟨1⟩

def SeverityFlags.INFO : SeverityFlags := ⟨16⟩

def SeverityFlags.WARNING : SeverityFlags := ⟨256⟩

def SeverityFlags.ERROR : SeverityFlags := ⟨4096⟩

/-- The `message_severity` mask of the `DebugUtilsMessengerCreateInfoEXT`
built in `Renderer::new` (rendering/mod.rs:156-161); the `INFO` bit is
commented out in the source. -/
def messageSeverityMask : List SeverityFlags :=
  [SeverityFlags.VERBOSE, SeverityFlags.WARNING, SeverityFlags.ERROR]

/-- `str::trim` (used on the callback message, rendering/mod.rs:1081): drop
leading and trailing whitespace characters, modelled structurally over the
character list so it evaluates; Rust's Unicode whitespace and
`Char.isWhitespace` agree on the ASCII messages modelled here. -/
def strTrim (s : String) : String :=
  ⟨((s.data.dropWhile Char.isWhitespace).reverse.dropWhile Char.isWhitespace).reverse⟩

/-- `vulkan_debug_callback` (rendering/mod.rs:1074): trims the message and
routes it to the logging collaborator by severity; an unrecognized severity
value logs nothing. -/
def vulkan_debug_callback (message_severity : SeverityFlags) (message : String) :
    Option LogMsg :=
  let message := strTrim message
  if message_severity = SeverityFlags.VERBOSE then
    some (LogMsg.info ("Vulkan: " ++ message))
  else if message_severity = SeverityFlags.WARNING then
    some (LogMsg.warn ("Vulkan: " ++ message))
  else if message_severity = SeverityFlags.ERROR then
    some (LogMsg.error ("Vulkan: " ++ message))
  else if message_severity = SeverityFlags.INFO then
    some (LogMsg.info ("Vulkan: " ++ message))
  else
    none

/-- The attached messenger as a whole: the driver invokes the callback only
for severities within the registered `message_severity` mask. -/
def debug_messenger_delivery (message_severity : SeverityFlags) (message : String) :
    Option LogMsg :=
  if message_severity ∈ messageSeverityMask then
    vulkan_debug_callback message_severity message
  else
    none

/-! ## Physical device selection (rendering/mod.rs:184-279) -/

/-- `DEVICE_EXTENSIONS` (rendering/mod.rs:33). -/
def DEVICE_EXTENSIONS : List String := ["VK_KHR_swapchain"]

/-- What the selection filter queries about one candidate physical device:
its extension names, the surface data, and per queue family whether it
supports graphics operations resp. presentation to the surface. -/
structure PhysicalDeviceInfo where
  extensions : List String
  surface_formats : List SurfaceFormatKHR
  surface_present_modes : List PresentModeKHR
  queue_graphics_support : List Bool
  queue_present_support : List Bool
  deriving DecidableEq, Repr

/-- The body of the `filter_map` in `Renderer::new` (rendering/mod.rs:197-271)
on the non-driver-error path: require the swapchain device extension, at least
one surface format, at least one present mode, a graphics-capable queue
family and a present-capable queue family; yield the two family indices. -/
def deviceSuitable (d : PhysicalDeviceInfo) : Option (Nat × Nat) :=
  if ¬ (DEVICE_EXTENSIONS.all fun e => d.extensions.contains e) then none
  else if d.surface_formats.isEmpty ∨ d.surface_present_modes.isEmpty then none
  else
    match d.queue_graphics_support.findIdx? id,
          d.queue_present_support.findIdx? id with
    | some graphics, some present => some (graphics, present)
    | _, _ => none

/-- First-fit selection over the enumeration order (`.nth(0)` on the
filtered iterator, rendering/mod.rs:273). -/
def selectPhysicalDevice :
    List PhysicalDeviceInfo → Option (PhysicalDeviceInfo × Nat × Nat)
  | [] => none
  | d :: rest =>
    match deviceSuitable d with
    | some (graphics, present) => some (d, graphics, present)
    | none => selectPhysicalDevice rest

/-! ## Auxiliary definitions for the store invariant -/

/-- How many registrations of `n` a single event performs. -/
def eventRegisters (n : String) : StoreEvent → Nat
  | .register m _ => if m = n then 1 else 0
  | .complete _ => 0

/-- Counting invariant tying the outstanding loader threads for a name to the
number of registrations consumed so far: at most one pending writer per
registration, and a resolved (non-`Loading`) state accounts for one more
consumed registration. -/
def StoreInv (n : String) (k : Nat) (s : StoreState) : Prop :=
  pendingCount n s.pending ≤ k ∧
  (∀ st, mapGet n s.resources = some st → st.is_loading = false →
    pendingCount n s.pending + 1 ≤ k) ∧
  ((mapGet n s.resources).isSome → 1 ≤ k)

/-! ## Helper lemmas -/

theorem mapGet_insert_self (k : String) (v : ResourceState)
    (m : List (String × ResourceState)) : mapGet k (mapInsert k v m) = some v := by
  induction m with
  | nil => simp [mapInsert, mapGet]
  | cons q rest ih =>
    obtain ⟨k₁, v₁⟩ := q
    by_cases h : k₁ = k <;> simp [mapInsert, mapGet, h, ih]

theorem mapGet_insert_other (k k' : String) (v : ResourceState)
    (m : List (String × ResourceState)) (h : k ≠ k') :
    mapGet k' (mapInsert k v m) = mapGet k' m := by
  induction m with
  | nil => simp [mapInsert, mapGet, h]
  | cons q rest ih =>
    obtain ⟨k₁, v₁⟩ := q
    by_cases h₁ : k₁ = k
    · subst h₁; simp [mapInsert, mapGet, h, ih]
    · simp [mapInsert, mapGet, h₁, ih]

theorem pendingCount_append (n : String) (p q : List (String × LoadResult)) :
    pendingCount n (p ++ q) = pendingCount n p + pendingCount n q := by
  induction p with
  | nil => simp [pendingCount]
  | cons x rest ih => simp [pendingCount, ih]; omega

theorem pendingCount_eraseIdx (n : String) :
    ∀ (p : List (String × LoadResult)) (i : Nat) (m : String) (r : LoadResult),
      p.get? i = some (m, r) →
      pendingCount n (p.eraseIdx i) + (if m = n then 1 else 0) = pendingCount n p := by
  intro p
  induction p with
  | nil => intro i m r h; simp at h
  | cons q rest ih =>
    intro i m r h
    cases i with
    | zero =>
      simp only [List.get?] at h
      cases h
      simp [List.eraseIdx, pendingCount]
      omega
    | succ j =>
      simp only [List.get?] at h
      have := ih j m r h
      simp [List.eraseIdx, pendingCount]
      omega

theorem pendingCount_pos (n : String) :
    ∀ (p : List (String × LoadResult)) (r : LoadResult),
      (n, r) ∈ p → 1 ≤ pendingCount n p := by
  intro p
  induction p with
  | nil => intro r h; simp at h
  | cons q rest ih =>
    intro r h
    rcases List.mem_cons.mp h with h | h
    · subst h; simp [pendingCount]
    · have := ih r h
      simp [pendingCount]
      omega

theorem runLoader_other (n name : String) (result : LoadResult)
    (res : List (String × ResourceState)) (log : List LogMsg) (h : name ≠ n) :
    mapGet n (runLoader name result res log).1 = mapGet n res := by
  unfold runLoader
  cases result <;> dsimp only <;> split <;>
    simp [mapGet_insert_other name n _ _ h]

theorem get?_append_length {α : Type} (l : List α) (x : α) :
    (l ++ [x]).get? l.length = some x := by
  induction l with
  | nil => rfl
  | cons y rest ih => simp [ih]

theorem registerCount_cons (n : String) (e : StoreEvent) (t : List StoreEvent) :
    registerCount n (e :: t) = eventRegisters n e + registerCount n t := by
  cases e <;> simp [registerCount, eventRegisters]

theorem registerCount_append (n : String) (t₁ t₂ : List StoreEvent) :
    registerCount n (t₁ ++ t₂) = registerCount n t₁ + registerCount n t₂ := by
  induction t₁ with
  | nil => simp [registerCount]
  | cons e rest ih => simp [registerCount_cons, ih]; omega

theorem storeInv_step (n : String) (k : Nat) (s : StoreState) (e : StoreEvent)
    (h : StoreInv n k s) : StoreInv n (k + eventRegisters n e) (storeStep s e) := by
  obtain ⟨h1, h2, h3⟩ := h
  cases e with
  | register m load =>
    by_cases hm : m = n
    · subst hm
      refine ⟨?_, ?_, ?_⟩
      · simp [storeStep, add_resource, eventRegisters, pendingCount_append, pendingCount]
        omega
      · intro st hst hterm
        rw [show (storeStep s (.register m load)).resources
            = mapInsert m ResourceState.loading s.resources from rfl] at hst
        rw [mapGet_insert_self] at hst
        cases hst
        simp [ResourceState.is_loading] at hterm
      · intro _
        simp [eventRegisters]
    · refine ⟨?_, ?_, ?_⟩
      · simp [storeStep, add_resource, eventRegisters, pendingCount_append, pendingCount, hm]
        omega
      · intro st hst hterm
        rw [show (storeStep s (.register m load)).resources
            = mapInsert m ResourceState.loading s.resources from rfl] at hst
        rw [mapGet_insert_other m n _ _ hm] at hst
        have := h2 st hst hterm
        simp [storeStep, add_resource, eventRegisters, pendingCount_append, pendingCount, hm]
        omega
      · intro hsome
        rw [show (storeStep s (.register m load)).resources
            = mapInsert m ResourceState.loading s.resources from rfl,
          mapGet_insert_other m n _ _ hm] at hsome
        have := h3 hsome
        omega
  | complete i =>
    rcases hq : s.pending.get? i with _ | ⟨m, r⟩
    · simp only [storeStep, hq, eventRegisters]
      exact ⟨by omega, fun st hst hterm => by have := h2 st hst hterm; omega,
        fun hs => by have := h3 hs; omega⟩
    · have herase := pendingCount_eraseIdx n s.pending i m r hq
      have hstep : storeStep s (.complete i) =
          { resources := (runLoader m r s.resources s.log).1,
            pending := s.pending.eraseIdx i,
            log := (runLoader m r s.resources s.log).2 } := by
        simp only [storeStep, hq]
      by_cases hm : m = n
      · subst hm
        rw [if_pos rfl] at herase
        have hmem : 1 ≤ pendingCount m s.pending :=
          pendingCount_pos m s.pending r (List.get?_mem hq)
        refine ⟨?_, ?_, ?_⟩
        · rw [hstep]; simp [eventRegisters]; omega
        · intro st hst hterm
          rw [hstep]
          simp only [eventRegisters]
          omega
        · intro _
          simp only [eventRegisters]
          omega
      · rw [if_neg hm] at herase
        refine ⟨?_, ?_, ?_⟩
        · rw [hstep]; simp [eventRegisters]; omega
        · intro st hst hterm
          rw [hstep] at hst
          simp only at hst
          rw [runLoader_other n m r s.resources s.log hm] at hst
          have := h2 st hst hterm
          rw [hstep]
          simp only [eventRegisters]
          omega
        · intro hsome
          rw [hstep] at hsome
          simp only at hsome
          rw [runLoader_other n m r s.resources s.log hm] at hsome
          have := h3 hsome
          omega

theorem storeInv_run (n : String) :
    ∀ (t : List StoreEvent) (k : Nat) (s : StoreState), StoreInv n k s →
      StoreInv n (k + registerCount n t) (t.foldl storeStep s) := by
  intro t
  induction t with
  | nil => intro k s h; simpa [registerCount] using h
  | cons e rest ih =>
    intro k s h
    have hstep := storeInv_step n k s e h
    have := ih (k + eventRegisters n e) (storeStep s e) hstep
    rw [registerCount_cons]
    simpa [Nat.add_assoc] using this

theorem store_stable (n : String) (st : ResourceState) :
    ∀ (t : List StoreEvent) (s : StoreState),
      mapGet n s.resources = some st → st.is_loading = false →
      pendingCount n s.pending = 0 → registerCount n t = 0 →
      mapGet n (t.foldl storeStep s).resources = some st ∧
      pendingCount n (t.foldl storeStep s).pending = 0 := by
  intro t
  induction t with
  | nil => intro s h hterm hp _; exact ⟨h, hp⟩
  | cons e rest ih =>
    intro s h hterm hp hr
    rw [registerCount_cons] at hr
    have hrrest : registerCount n rest = 0 := by omega
    have hre : eventRegisters n e = 0 := by omega
    cases e with
    | register m load =>
      have hm : m ≠ n := by
        intro hmn; subst hmn; simp [eventRegisters] at hre
      refine ih (storeStep s (.register m load)) ?_ hterm ?_ hrrest
      · rw [show (storeStep s (.register m load)).resources
            = mapInsert m ResourceState.loading s.resources from rfl]
        rw [mapGet_insert_other m n _ _ hm]
        exact h
      · simp [storeStep, add_resource, pendingCount_append, pendingCount, hm, hp]
    | complete i =>
      rcases hq : s.pending.get? i with _ | ⟨m, r⟩
      · have hs : storeStep s (.complete i) = s := by simp only [storeStep, hq]
        rw [List.foldl_cons, hs]
        exact ih s h hterm hp hrrest
      · have hm : m ≠ n := by
          intro hmn
          subst hmn
          have := pendingCount_pos m s.pending r (List.get?_mem hq)
          omega
        have herase := pendingCount_eraseIdx n s.pending i m r hq
        have hstep : storeStep s (.complete i) =
            { resources := (runLoader m r s.resources s.log).1,
              pending := s.pending.eraseIdx i,
              log := (runLoader m r s.resources s.log).2 } := by
          simp only [storeStep, hq]
        refine ih (storeStep s (.complete i)) ?_ hterm ?_ hrrest
        · rw [hstep]
          simp only
          rw [runLoader_other n m r s.resources s.log hm]
          exact h
        · rw [hstep]
          rw [if_neg hm] at herase
          simp only
          omega

/--
Claim C1 (amended): for any history of register and loader-completion events
in which the name is registered at most once, once a peek observes a
non-`Loading` (terminal) state under that name, every later peek returns the
identical state: the resource transitions at most once to a terminal state
and holds it forever.
-/
theorem c1_terminal_stability (t₁ t₂ : List StoreEvent) (n : String)
    (st : ResourceState)
    (hreg : registerCount n (t₁ ++ t₂) ≤ 1)
    (hpeek : get_resource (runStore t₁) n = some st)
    (hterm : st.is_loading = false) :
    get_resource (runStore (t₁ ++ t₂)) n = some st := by
  have hinit : StoreInv n 0 ⟨[], [], []⟩ := by
    refine ⟨by simp [pendingCount], ?_, by simp [mapGet]⟩
    intro st h
    simp [mapGet] at h
  have hinv : StoreInv n (0 + registerCount n t₁) (runStore t₁) :=
    storeInv_run n t₁ 0 ⟨[], [], []⟩ hinit
  rw [Nat.zero_add] at hinv
  have happ := registerCount_append n t₁ t₂
  have h2 := hinv.2.1 st hpeek hterm
  have hp0 : pendingCount n (runStore t₁).pending = 0 := by omega
  have ht2 : registerCount n t₂ = 0 := by omega
  have hst := store_stable n st t₂ (runStore t₁) hpeek hterm hp0 ht2
  have hfold : runStore (t₁ ++ t₂) = t₂.foldl storeStep (runStore t₁) := by
    simp [runStore, List.foldl_append]
  rw [get_resource, hfold]
  exact hst.1

/-- Witness for C1 at a concrete history: `"normal"` is registered once and
loads; later activity on another name leaves its terminal state untouched. -/
theorem c1_terminal_stability_witness :
    registerCount "normal"
        ([StoreEvent.register "normal" (Except.ok (Resource.shader ⟨[1], [2]⟩)),
          StoreEvent.complete 0] ++
         [StoreEvent.register "other" (Except.error "nope"), StoreEvent.complete 0]) ≤ 1 ∧
    get_resource (runStore
        ([StoreEvent.register "normal" (Except.ok (Resource.shader ⟨[1], [2]⟩)),
          StoreEvent.complete 0] ++
         [StoreEvent.register "other" (Except.error "nope"), StoreEvent.complete 0]))
        "normal" = some (ResourceState.loaded (Resource.shader ⟨[1], [2]⟩)) :=
  ⟨by decide,
   c1_terminal_stability _ _ "normal" _ (by decide) (by decide) (by decide)⟩

/--
Counterexample to C1 as stated: with a repeated registration of the same
name, the state under `"a"` reaches the terminal state `Loaded(shader 1)` and
later changes to `Loaded(shader 2)` — the background thread of the first
registration and the second registration's thread both write the entry, so a
terminal state does not persist and post-terminal peeks differ.
-/
theorem c1_counterexample :
    get_resource (runStore
        [StoreEvent.register "a" (Except.ok (Resource.shader ⟨[1], [1]⟩)),
         StoreEvent.register "a" (Except.ok (Resource.shader ⟨[2], [2]⟩)),
         StoreEvent.complete 0]) "a" =
      some (ResourceState.loaded (Resource.shader ⟨[1], [1]⟩)) ∧
    (ResourceState.loaded (Resource.shader ⟨[1], [1]⟩)).is_loading = false ∧
    get_resource (runStore
        ([StoreEvent.register "a" (Except.ok (Resource.shader ⟨[1], [1]⟩)),
          StoreEvent.register "a" (Except.ok (Resource.shader ⟨[2], [2]⟩)),
          StoreEvent.complete 0] ++ [StoreEvent.complete 0])) "a" =
      some (ResourceState.loaded (Resource.shader ⟨[2], [2]⟩)) ∧
    ResourceState.loaded (Resource.shader ⟨[1], [1]⟩) ≠
      ResourceState.loaded (Resource.shader ⟨[2], [2]⟩) := by
  refine ⟨by decide, by decide, by decide, by decide⟩

/--
Claim C3 (amended): when a registered loader fails, the state stored under
the name becomes the terminal `Failed` state — which carries no reason; the
human-readable cause appears only in the warning line handed to the logging
collaborator — and the store remains fully operational (the step function is
total, so neither the worker nor the store crashes).
-/
theorem c3_failed_state_and_log (s : StoreState) (name cause : String) :
    get_resource (storeStep (storeStep s (StoreEvent.register name (Except.error cause)))
        (StoreEvent.complete s.pending.length)) name = some ResourceState.failed ∧
    ResourceState.failed.is_loading = false ∧
    LogMsg.warn ("Failed to load resource " ++ name ++ ": " ++ cause) ∈
      (storeStep (storeStep s (StoreEvent.register name (Except.error cause)))
        (StoreEvent.complete s.pending.length)).log := by
  have h1 : storeStep s (StoreEvent.register name (Except.error cause)) =
      { s with
        resources := mapInsert name ResourceState.loading s.resources,
        pending := s.pending ++ [(name, Except.error cause)] } := rfl
  have hget : (s.pending ++ [(name, (Except.error cause : LoadResult))]).get?
      s.pending.length = some (name, Except.error cause) :=
    get?_append_length s.pending (name, Except.error cause)
  rw [h1]
  have h2 : storeStep
      { s with
        resources := mapInsert name ResourceState.loading s.resources,
        pending := s.pending ++ [(name, Except.error cause)] }
      (StoreEvent.complete s.pending.length) =
      { resources := (runLoader name (Except.error cause)
          (mapInsert name ResourceState.loading s.resources) s.log).1,
        pending := (s.pending ++ [(name, Except.error cause)]).eraseIdx s.pending.length,
        log := (runLoader name (Except.error cause)
          (mapInsert name ResourceState.loading s.resources) s.log).2 } := by
    simp only [storeStep, hget]
  rw [h2]
  have hsome : (mapGet name (mapInsert name ResourceState.loading s.resources)).isSome
      = true := by
    rw [mapGet_insert_self]; rfl
  refine ⟨?_, rfl, ?_⟩
  · rw [get_resource]
    simp only [runLoader, hsome, if_pos]
    exact mapGet_insert_self name ResourceState.failed _
  · simp only [runLoader, hsome, if_pos]
    simp

/--
Counterexample to C3 as stated: the stored `Failed` state is identical for
two loaders failing with different causes, so the cause is not observable to
readers of the store — `Failed` carries no reason in the code.
-/
theorem c3_counterexample :
    get_resource (runStore [StoreEvent.register "cfg" (Except.error "cause one"),
        StoreEvent.complete 0]) "cfg" =
      get_resource (runStore [StoreEvent.register "cfg" (Except.error "cause two"),
        StoreEvent.complete 0]) "cfg" ∧
    "cause one" ≠ "cause two" ∧
    get_resource (runStore [StoreEvent.register "cfg" (Except.error "cause one"),
        StoreEvent.complete 0]) "cfg" = some ResourceState.failed := by
  refine ⟨by decide, by decide, by decide⟩

/--
Claim C2 (amended): in the shader-module construction of `Renderer::new`,
a required name whose awaited state is `Failed` makes the whole build return
`ShaderLoadingError` with that name and the cause string
"Failed shader requested"; but a name whose `Loaded` payload is not a
`Shader` makes the build abort the process (the source's explicit runtime
abort), not return a `ShaderLoadingError`.
-/
theorem c2_shader_build_failure (cm : List Nat → Except Int Nat)
    (rs : String → ResourceState) (pre post : List String) (n : String)
    (hpre : ∀ m ∈ pre, ∃ sh vm fm,
      rs m = ResourceState.loaded (Resource.shader sh) ∧
      cm sh.vert = Except.ok vm ∧ cm sh.frag = Except.ok fm) :
    (rs n = ResourceState.failed →
      buildShaderModules cm rs (pre ++ n :: post) =
        BuildResult.err n (ErrCause.right "Failed shader requested")) ∧
    (∀ c, rs n = ResourceState.loaded (Resource.config c) →
      buildShaderModules cm rs (pre ++ n :: post) =
        BuildResult.aborted "Non shader resource in shader List") := by
  induction pre with
  | nil =>
    refine ⟨?_, ?_⟩
    · intro hn
      simp [buildShaderModules, hn]
    · intro c hn
      simp [buildShaderModules, hn]
  | cons m pre ih =>
    obtain ⟨sh, vm, fm, hm, hv, hf⟩ := hpre m (List.mem_cons_self m pre)
    have ih' := ih fun m' hm' => hpre m' (List.mem_cons_of_mem m hm')
    refine ⟨?_, ?_⟩
    · intro hn
      have hrest := ih'.1 hn
      simp [buildShaderModules, hm, hv, hf, hrest]
    · intro c hn
      have hrest := ih'.2 c hn
      simp [buildShaderModules, hm, hv, hf, hrest]

/-- Witness for C2 at a concrete input: one well-loaded shader before a
failed name; the build returns the `ShaderLoadingError` for the failed
name. -/
theorem c2_shader_build_failure_witness :
    buildShaderModules (fun _ => Except.ok 7)
        (fun m => if m = "good" then ResourceState.loaded (Resource.shader ⟨[1], [2]⟩)
                  else ResourceState.failed)
        (["good"] ++ "bad" :: []) =
      BuildResult.err "bad" (ErrCause.right "Failed shader requested") :=
  (c2_shader_build_failure (fun _ => Except.ok 7)
    (fun m => if m = "good" then ResourceState.loaded (Resource.shader ⟨[1], [2]⟩)
              else ResourceState.failed)
    ["good"] [] "bad"
    (by
      intro m hm
      simp only [List.mem_singleton] at hm
      subst hm
      exact ⟨⟨[1], [2]⟩, 7, 7, by decide, rfl, rfl⟩)).1 (by decide)

/--
Counterexample to C2 as stated: a shader-list name resolved to a `Loaded`
config payload makes the build abort the process with
"Non shader resource in shader List" instead of returning the
`ShaderLoadingError` the claim requires.
-/
theorem c2_counterexample :
    buildShaderModules (fun _ => Except.ok 0)
        (fun _ => ResourceState.loaded (Resource.config ⟨"conf"⟩)) ["tri"] =
      BuildResult.aborted "Non shader resource in shader List" ∧
    ∀ name cause,
      buildShaderModules (fun _ => Except.ok 0)
        (fun _ => ResourceState.loaded (Resource.config ⟨"conf"⟩)) ["tri"] ≠
      BuildResult.err name cause := by
  refine ⟨by decide, ?_⟩
  intro name cause h
  rw [show buildShaderModules (fun _ => Except.ok 0)
      (fun _ => ResourceState.loaded (Resource.config ⟨"conf"⟩)) ["tri"] =
      BuildResult.aborted "Non shader resource in shader List" from by decide] at h
  exact BuildResult.noConfusion h

theorem present_mode_loop_eq (l : List PresentModeKHR) (best : PresentModeKHR) :
    present_mode_loop l best =
      if PresentModeKHR.MAILBOX ∈ l then PresentModeKHR.MAILBOX
      else if PresentModeKHR.IMMEDIATE ∈ l then PresentModeKHR.IMMEDIATE
      else best := by
  induction l generalizing best with
  | nil => simp [present_mode_loop]
  | cons m rest ih =>
    by_cases hm : m = PresentModeKHR.MAILBOX
    · subst hm
      simp [present_mode_loop]
    · by_cases hi : m = PresentModeKHR.IMMEDIATE
      · subst hi
        have hne : PresentModeKHR.MAILBOX ≠ PresentModeKHR.IMMEDIATE := by decide
        rw [present_mode_loop, if_neg hm, if_pos rfl, ih]
        by_cases hmb : PresentModeKHR.MAILBOX ∈ rest
        · simp [hmb, List.mem_cons]
        · simp [hmb, List.mem_cons, hne]
      · have hm' : PresentModeKHR.MAILBOX ≠ m := fun h => hm h.symm
        have hi' : PresentModeKHR.IMMEDIATE ≠ m := fun h => hi h.symm
        rw [present_mode_loop, if_neg hm, if_neg hi, ih]
        simp [List.mem_cons, hm', hi']

/--
Claim C4: present-mode selection returns MAILBOX whenever MAILBOX occurs in
the input list; otherwise IMMEDIATE whenever IMMEDIATE occurs; otherwise
FIFO — a membership condition, hence independent of the input order.
-/
theorem c4_choose_swap_present_mode (l : List PresentModeKHR) :
    choose_swap_present_mode l =
      if PresentModeKHR.MAILBOX ∈ l then PresentModeKHR.MAILBOX
      else if PresentModeKHR.IMMEDIATE ∈ l then PresentModeKHR.IMMEDIATE
      else PresentModeKHR.FIFO :=
  present_mode_loop_eq l PresentModeKHR.FIFO

theorem surface_format_pred_iff (f : SurfaceFormatKHR) :
    (f.format = Format.B8G8R8A8_UNORM ∧
     f.color_space = ColorSpaceKHR.SRGB_NONLINEAR) ↔ f = defaultSurfaceFormat := by
  cases f
  simp [defaultSurfaceFormat]

theorem find_default_eq (l : List SurfaceFormatKHR) :
    l.find? (fun f => decide (f.format = Format.B8G8R8A8_UNORM ∧
        f.color_space = ColorSpaceKHR.SRGB_NONLINEAR)) =
      if defaultSurfaceFormat ∈ l then some defaultSurfaceFormat else none := by
  induction l with
  | nil => rfl
  | cons f rest ih =>
    by_cases hf : f = defaultSurfaceFormat
    · subst hf
      have hp : (decide (defaultSurfaceFormat.format = Format.B8G8R8A8_UNORM ∧
          defaultSurfaceFormat.color_space = ColorSpaceKHR.SRGB_NONLINEAR)) = true := by
        decide
      simp [List.find?, hp]
    · have hp : (decide (f.format = Format.B8G8R8A8_UNORM ∧
          f.color_space = ColorSpaceKHR.SRGB_NONLINEAR)) = false := by
        rw [decide_eq_false_iff_not]
        intro hc
        exact hf ((surface_format_pred_iff f).mp hc)
      have hne : ¬ defaultSurfaceFormat = f := fun h => hf h.symm
      simpa [List.find?, hp, List.mem_cons, hne] using ih

/--
Claim C5: for a non-empty list of reported surface formats, the selection
returns the fixed BGRA8/sRGB-nonlinear default when the list is a single
entry with the UNDEFINED format; else that default pair when it occurs
anywhere in the list; else the first entry.
-/
theorem c5_choose_swap_surface_format (l : List SurfaceFormatKHR) (h : l ≠ []) :
    choose_swap_surface_format l =
      some (if l.length = 1 ∧ l.headI.format = Format.UNDEFINED then
              defaultSurfaceFormat
            else if defaultSurfaceFormat ∈ l then defaultSurfaceFormat
            else l.headI) := by
  rcases l with _ | ⟨f, rest⟩
  · exact absurd rfl h
  · by_cases h1 : rest = [] ∧ f.format = Format.UNDEFINED
    · obtain ⟨hr, hf⟩ := h1
      subst hr
      simp [choose_swap_surface_format, hf]
    · rw [choose_swap_surface_format, find_default_eq]
      have hc1 : ¬((f :: rest).length = 1 ∧
          (f :: rest).head?.map SurfaceFormatKHR.format = some Format.UNDEFINED) := by
        intro hc
        exact h1 ⟨by simpa using hc.1, by simpa using hc.2⟩
      have hc2 : ¬((f :: rest).length = 1 ∧
          (f :: rest).headI.format = Format.UNDEFINED) := by
        intro hc
        exact h1 ⟨by simpa using hc.1, by simpa using hc.2⟩
      rw [if_neg hc1, if_neg hc2]
      by_cases h2 : defaultSurfaceFormat ∈ f :: rest
      · rw [if_pos h2, if_pos h2]
      · rw [if_neg h2, if_neg h2]
        rfl

/-- Witness for C5 at the single-UNDEFINED input from the spec. -/
theorem c5_choose_swap_surface_format_witness :
    choose_swap_surface_format [⟨Format.UNDEFINED, ColorSpaceKHR.SRGB_NONLINEAR⟩] =
      some defaultSurfaceFormat := by
  have h := c5_choose_swap_surface_format
    [⟨Format.UNDEFINED, ColorSpaceKHR.SRGB_NONLINEAR⟩] (by decide)
  rw [h]
  decide

/--
Claim C6 (amended): the code treats the current extent as the "any size"
sentinel exactly when its width equals `u32::MAX` — the height component is
not inspected.  Whenever the width differs from `u32::MAX` the reported
current extent is returned; otherwise the window size is clamped
component-wise into `[min_image_extent, max_image_extent]`: an in-bounds
component passes through, a too-small one is raised to the minimum, a
too-large one is lowered to the maximum.
-/
theorem c6_choose_swap_extent (ws : Nat × Nat) (caps : SurfaceCapabilitiesKHR)
    (hw : caps.min_image_extent.width ≤ caps.max_image_extent.width)
    (hh : caps.min_image_extent.height ≤ caps.max_image_extent.height) :
    (caps.current_extent.width ≠ U32_MAX →
      choose_swap_extent ws caps = caps.current_extent) ∧
    (caps.current_extent.width = U32_MAX →
      choose_swap_extent ws caps =
        ⟨if ws.1 < caps.min_image_extent.width then caps.min_image_extent.width
          else if caps.max_image_extent.width < ws.1 then caps.max_image_extent.width
          else ws.1,
         if ws.2 < caps.min_image_extent.height then caps.min_image_extent.height
          else if caps.max_image_extent.height < ws.2 then caps.max_image_extent.height
          else ws.2⟩) := by
  obtain ⟨w, ht⟩ := ws
  constructor
  · intro h
    simp [choose_swap_extent, h]
  · intro h
    simp only [choose_swap_extent, h, ne_eq, not_true_eq_false, if_false]
    refine Extent2D.mk.injEq .. ▸ ?_
    constructor <;> dsimp only <;> split_ifs <;> omega

/-- Witness for C6: the sentinel extent with a too-small window clamps up to
the minimum extent. -/
theorem c6_choose_swap_extent_witness :
    choose_swap_extent (10, 10)
        ⟨1, 0, ⟨U32_MAX, U32_MAX⟩, ⟨64, 64⟩, ⟨4096, 4096⟩⟩ = ⟨64, 64⟩ := by
  have h := (c6_choose_swap_extent (10, 10)
    ⟨1, 0, ⟨U32_MAX, U32_MAX⟩, ⟨64, 64⟩, ⟨4096, 4096⟩⟩
    (by decide) (by decide)).2 rfl
  rw [h]
  decide

/--
Counterexample to C6 as stated: the extent `(u32::MAX, 100)` is not the
"any size" sentinel `(u32::MAX, u32::MAX)`, yet the code does not return it —
it falls into the clamping branch because only the width is compared.
-/
theorem c6_counterexample :
    (SurfaceCapabilitiesKHR.mk 1 0 ⟨U32_MAX, 100⟩ ⟨64, 64⟩
        ⟨4096, 4096⟩).current_extent ≠ ⟨U32_MAX, U32_MAX⟩ ∧
    choose_swap_extent (800, 600)
        ⟨1, 0, ⟨U32_MAX, 100⟩, ⟨64, 64⟩, ⟨4096, 4096⟩⟩ = ⟨800, 600⟩ ∧
    choose_swap_extent (800, 600)
        ⟨1, 0, ⟨U32_MAX, 100⟩, ⟨64, 64⟩, ⟨4096, 4096⟩⟩ ≠
      (SurfaceCapabilitiesKHR.mk 1 0 ⟨U32_MAX, 100⟩ ⟨64, 64⟩
        ⟨4096, 4096⟩).current_extent := by
  refine ⟨by decide, by decide, by decide⟩

/--
Claim C7: `cleanup_swapchain` issues its release calls strictly in the order
command buffers, framebuffers, pipeline, pipeline layout, render pass, image
views, swapchain — and never destroys the device or the instance.
-/
theorem c7_cleanup_swapchain_order (cbs fbs : List Nat) (p pl rp : Nat)
    (views : List Nat) (sc : Nat) :
    (cleanup_swapchain cbs fbs p pl rp views sc).map destroyKind =
      [DestroyKind.commandBuffers]
        ++ fbs.map (fun _ => DestroyKind.framebuffer)
        ++ [DestroyKind.pipeline, DestroyKind.pipelineLayout, DestroyKind.renderPass]
        ++ views.map (fun _ => DestroyKind.imageView)
        ++ [DestroyKind.swapchain] ∧
    DestroyEvent.destroyDevice ∉ cleanup_swapchain cbs fbs p pl rp views sc ∧
    DestroyEvent.destroyInstance ∉ cleanup_swapchain cbs fbs p pl rp views sc := by
  refine ⟨?_, ?_, ?_⟩
  · simp [cleanup_swapchain, List.map_map, Function.comp_def, destroyKind]
  · simp [cleanup_swapchain]
  · simp [cleanup_swapchain]

theorem runTicks_all_ok (s : RendererState)
    (hslot : s.current_frame < MAX_FRAMES_IN_FLIGHT) :
    ∀ envs : List TickEnv, (∀ e ∈ envs, ∃ i, e.acquire = AcquireResult.ok i) →
      (runTicks envs s).current_frame =
        (s.current_frame + envs.length) % MAX_FRAMES_IN_FLIGHT := by
  have hgen : ∀ (envs : List TickEnv) (t : RendererState),
      t.current_frame < MAX_FRAMES_IN_FLIGHT →
      (∀ e ∈ envs, ∃ i, e.acquire = AcquireResult.ok i) →
      (runTicks envs t).current_frame =
        (t.current_frame + envs.length) % MAX_FRAMES_IN_FLIGHT := by
    intro envs
    induction envs with
    | nil =>
      intro t hlt _
      simp only [MAX_FRAMES_IN_FLIGHT] at hlt
      simp [runTicks, MAX_FRAMES_IN_FLIGHT]
      omega
    | cons e rest ih =>
      intro t hlt hall
      obtain ⟨i, hi⟩ := hall e (List.mem_cons_self e rest)
      have hstep : (renderer_run e t).1 =
          { t with current_frame := (t.current_frame + 1) % MAX_FRAMES_IN_FLIGHT } := by
        simp [renderer_run, hi]
      have hfold : runTicks (e :: rest) t = runTicks rest (renderer_run e t).1 := rfl
      rw [hfold, hstep]
      have hlt' : (t.current_frame + 1) % MAX_FRAMES_IN_FLIGHT < MAX_FRAMES_IN_FLIGHT := by
        simp [MAX_FRAMES_IN_FLIGHT]
        omega
      rw [ih _ hlt' fun e' he' => hall e' (List.mem_cons_of_mem e he')]
      simp only [List.length_cons, MAX_FRAMES_IN_FLIGHT]
      omega
  exact fun envs hall => hgen envs s hslot hall

/--
Claim C8: an out-of-date acquire rebuilds the swapchain context in place
(after waiting the present queue idle) and returns with `current_frame`
unchanged; a successful tick presents and advances `current_frame` by 1
modulo `MAX_FRAMES_IN_FLIGHT` (= 2) while leaving the context alone; over any
run of successful ticks the slot therefore cycles 0,1,0,1,….
-/
theorem c8_frame_advance (env : TickEnv) (s : RendererState)
    (hslot : s.current_frame < MAX_FRAMES_IN_FLIGHT) :
    (env.acquire = AcquireResult.errOutOfDate →
      renderer_run env s =
        ({ s with ctx := env.rebuilt }, TickOutcome.rebuiltSwapchain,
          [DeviceCall.wait_for_fences s.current_frame, DeviceCall.queue_wait_idle]) ∧
      (renderer_run env s).1.current_frame = s.current_frame) ∧
    (∀ i, env.acquire = AcquireResult.ok i →
      (renderer_run env s).1.current_frame =
        (s.current_frame + 1) % MAX_FRAMES_IN_FLIGHT ∧
      (renderer_run env s).2.1 = TickOutcome.presented i ∧
      (renderer_run env s).1.ctx = s.ctx) ∧
    (∀ envs : List TickEnv, (∀ e ∈ envs, ∃ i, e.acquire = AcquireResult.ok i) →
      (runTicks envs s).current_frame =
        (s.current_frame + envs.length) % MAX_FRAMES_IN_FLIGHT) := by
  refine ⟨?_, ?_, runTicks_all_ok s hslot⟩
  · intro h
    constructor <;> simp [renderer_run, h]
  · intro i h
    refine ⟨?_, ?_, ?_⟩ <;> simp [renderer_run, h]

/-- Witness for C8 at concrete ticks: one out-of-date tick keeps the slot at
0 and swaps in the rebuilt context; three successful ticks from slot 0 end at
slot (0 + 3) % 2 = 1. -/
theorem c8_frame_advance_witness :
    (renderer_run ⟨AcquireResult.errOutOfDate, ⟨8, [9], 10, 11, 12, [13], [14]⟩⟩
        ⟨⟨1, [2], 3, 4, 5, [6], [7]⟩, 0⟩).1.current_frame = 0 ∧
    (runTicks [⟨AcquireResult.ok 0, ⟨8, [9], 10, 11, 12, [13], [14]⟩⟩,
        ⟨AcquireResult.ok 1, ⟨8, [9], 10, 11, 12, [13], [14]⟩⟩,
        ⟨AcquireResult.ok 0, ⟨8, [9], 10, 11, 12, [13], [14]⟩⟩]
      ⟨⟨1, [2], 3, 4, 5, [6], [7]⟩, 0⟩).current_frame = (0 + 3) % MAX_FRAMES_IN_FLIGHT :=
  ⟨((c8_frame_advance ⟨AcquireResult.errOutOfDate, ⟨8, [9], 10, 11, 12, [13], [14]⟩⟩
      ⟨⟨1, [2], 3, 4, 5, [6], [7]⟩, 0⟩ (by decide)).1 rfl).2,
   (c8_frame_advance ⟨AcquireResult.ok 5, ⟨8, [9], 10, 11, 12, [13], [14]⟩⟩
      ⟨⟨1, [2], 3, 4, 5, [6], [7]⟩, 0⟩ (by decide)).2.2
     [⟨AcquireResult.ok 0, ⟨8, [9], 10, 11, 12, [13], [14]⟩⟩,
      ⟨AcquireResult.ok 1, ⟨8, [9], 10, 11, 12, [13], [14]⟩⟩,
      ⟨AcquireResult.ok 0, ⟨8, [9], 10, 11, 12, [13], [14]⟩⟩]
     (by
       intro e he
       simp only [List.mem_cons, List.mem_singleton] at he
       rcases he with h | h | h | h
       · exact ⟨0, by rw [h]⟩
       · exact ⟨1, by rw [h]⟩
       · exact ⟨0, by rw [h]⟩
       · cases h)⟩

/--
Claim C9 (amended): the attached messenger forwards driver messages only of
the verbose, warning and error severities (the INFO bit is absent from the
registration mask, so informational messages are never delivered), and every
forwarded message is trimmed of leading and trailing whitespace — embedded
interior newlines are preserved, not stripped.
-/
theorem c9_messenger_filter_and_trim (sev : SeverityFlags) (msg : String) :
    ((debug_messenger_delivery sev msg).isSome → sev ∈ messageSeverityMask) ∧
    debug_messenger_delivery SeverityFlags.INFO msg = none ∧
    debug_messenger_delivery SeverityFlags.VERBOSE msg =
      some (LogMsg.info ("Vulkan: " ++ strTrim msg)) ∧
    debug_messenger_delivery SeverityFlags.WARNING msg =
      some (LogMsg.warn ("Vulkan: " ++ strTrim msg)) ∧
    debug_messenger_delivery SeverityFlags.ERROR msg =
      some (LogMsg.error ("Vulkan: " ++ strTrim msg)) := by
  have hvm : SeverityFlags.VERBOSE ∈ messageSeverityMask := by decide
  have hwm : SeverityFlags.WARNING ∈ messageSeverityMask := by decide
  have hem : SeverityFlags.ERROR ∈ messageSeverityMask := by decide
  have him : SeverityFlags.INFO ∉ messageSeverityMask := by decide
  have hwv : SeverityFlags.WARNING ≠ SeverityFlags.VERBOSE := by decide
  have hev : SeverityFlags.ERROR ≠ SeverityFlags.VERBOSE := by decide
  have hew : SeverityFlags.ERROR ≠ SeverityFlags.WARNING := by decide
  refine ⟨?_, ?_, ?_, ?_, ?_⟩
  · intro hs
    by_cases h : sev ∈ messageSeverityMask
    · exact h
    · rw [debug_messenger_delivery, if_neg h] at hs
      cases hs
  · rw [debug_messenger_delivery, if_neg him]
  · rw [debug_messenger_delivery, if_pos hvm, vulkan_debug_callback, if_pos rfl]
  · rw [debug_messenger_delivery, if_pos hwm, vulkan_debug_callback,
      if_neg hwv, if_pos rfl]
  · rw [debug_messenger_delivery, if_pos hem, vulkan_debug_callback,
      if_neg hev, if_neg hew, if_pos rfl]

/-- Witness for C9: an informational message is suppressed, a warning is
forwarded trimmed. -/
theorem c9_messenger_filter_and_trim_witness :
    debug_messenger_delivery SeverityFlags.INFO "hello" = none ∧
    debug_messenger_delivery SeverityFlags.WARNING " hello " =
      some (LogMsg.warn ("Vulkan: " ++ strTrim " hello ")) :=
  ⟨(c9_messenger_filter_and_trim SeverityFlags.INFO "hello").2.1,
   (c9_messenger_filter_and_trim SeverityFlags.WARNING " hello ").2.2.2.1⟩

/--
Counterexample to C9 as stated: a warning whose text contains an interior
newline is forwarded with that newline intact — the code only trims leading
and trailing whitespace, it does not strip embedded newlines.
-/
theorem c9_counterexample :
    debug_messenger_delivery SeverityFlags.WARNING "first line\nsecond line" =
      some (LogMsg.warn "Vulkan: first line\nsecond line") ∧
    '\n' ∈ "Vulkan: first line\nsecond line".data := by
  refine ⟨by decide, by decide⟩

theorem choose_format_cons_isSome (f : SurfaceFormatKHR)
    (rest : List SurfaceFormatKHR) :
    (choose_swap_surface_format (f :: rest)).isSome = true := by
  rw [choose_swap_surface_format]
  split
  · rfl
  · split
    · rfl
    · rfl

theorem deviceSuitable_formats_nonempty (d : PhysicalDeviceInfo)
    (gp : Nat × Nat) (h : deviceSuitable d = some gp) :
    d.surface_formats ≠ [] := by
  rw [deviceSuitable] at h
  split at h
  · cases h
  · split at h
    · cases h
    · rename_i hne
      intro hnil
      exact hne (Or.inl (by rw [hnil]; rfl))

/--
Claim C10: surface-format selection is total exactly on non-empty inputs —
it returns a value for every non-empty list, while the empty list hits the
first-element indexing panic (modelled by `none`) instead of producing a
default; and the selection filter of `Renderer::new` only ever selects a
physical device reporting at least one surface format, so the panic branch
is unreachable after device selection.
-/
theorem c10_format_selection_totality :
    choose_swap_surface_format [] = none ∧
    (∀ l : List SurfaceFormatKHR, l ≠ [] →
      (choose_swap_surface_format l).isSome = true) ∧
    (∀ (ds : List PhysicalDeviceInfo) (d : PhysicalDeviceInfo) (g p : Nat),
      selectPhysicalDevice ds = some (d, g, p) →
      d.surface_formats ≠ [] ∧
      (choose_swap_surface_format d.surface_formats).isSome = true) := by
  refine ⟨rfl, ?_, ?_⟩
  · intro l hl
    rcases l with _ | ⟨f, rest⟩
    · exact absurd rfl hl
    · exact choose_format_cons_isSome f rest
  · intro ds
    induction ds with
    | nil =>
      intro d g p h
      cases h
    | cons d₀ rest ih =>
      intro d g p h
      rw [selectPhysicalDevice] at h
      rcases hsuit : deviceSuitable d₀ with _ | ⟨g₀, p₀⟩
      · rw [hsuit] at h
        exact ih d g p h
      · have hne := deviceSuitable_formats_nonempty d₀ (g₀, p₀) hsuit
        rw [hsuit] at h
        cases h
        refine ⟨hne, ?_⟩
        rcases hfs : d₀.surface_formats with _ | ⟨f, rest'⟩
        · exact absurd hfs hne
        · exact choose_format_cons_isSome f rest'

/-- Witness for C10: a one-element format list is accepted, and a concrete
suitable device yields a non-empty format list on which selection succeeds. -/
theorem c10_format_selection_totality_witness :
    (choose_swap_surface_format [⟨Format.B8G8R8A8_UNORM,
        ColorSpaceKHR.SRGB_NONLINEAR⟩]).isSome = true ∧
    ((PhysicalDeviceInfo.mk ["VK_KHR_swapchain"] [⟨44, 0⟩] [PresentModeKHR.FIFO]
        [true] [true]).surface_formats ≠ [] ∧
      (choose_swap_surface_format (PhysicalDeviceInfo.mk ["VK_KHR_swapchain"]
        [⟨44, 0⟩] [PresentModeKHR.FIFO] [true] [true]).surface_formats).isSome = true) :=
  ⟨c10_format_selection_totality.2.1 _ (by decide),
   c10_format_selection_totality.2.2
     [PhysicalDeviceInfo.mk ["VK_KHR_swapchain"] [⟨44, 0⟩] [PresentModeKHR.FIFO]
       [true] [true]]
     (PhysicalDeviceInfo.mk ["VK_KHR_swapchain"] [⟨44, 0⟩] [PresentModeKHR.FIFO]
       [true] [true]) 0 0 (by decide)⟩
